import Mathlib

/-!
Shallow embedding of the resilient remote-conversation client of the
setsuna-discord-bot repository (src/characterai.js, src/unnamed/part_001,
src/unnamed/part_004), together with theorems settling the frozen claims
about it.

JavaScript values that matter to the claims are modelled as follows:
strings that may be absent (undefined/null) are Option String; JavaScript
truthiness on such a value is jsTruthy (absent and the empty string are
falsy); the JavaScript or-operator on them is jsOr / jsOrS; a promise that
either resolves or rejects is Except String (errors are their message
strings, as every thrown value in the source is a plain Error(message)).
-/

/-- JavaScript truthiness of a possibly-absent string: undefined/null and
the empty string are falsy, everything else truthy. -/
def jsTruthy : Option String → Bool
  | some s => decide (s ≠ "")
  | none => false

theorem jsTruthy_iff (o : Option String) :
    jsTruthy o = true ↔ ∃ s, o = some s ∧ s ≠ "" := by
  cases o <;> simp [jsTruthy]

/-- JavaScript a || b on possibly-absent strings: returns b whenever a is
falsy (absent or empty). -/
def jsOr (a b : Option String) : Option String :=
  match a with
  | some s => if s = "" then b else some s
  | none => b

/-- JavaScript a || d where the final operand d is a present string, so the
result is always a present string (models chains ending in a literal). -/
def jsOrS (a : Option String) (d : String) : String :=
  match a with
  | some s => if s = "" then d else s
  | none => d

/-! ## Error message constants of the source (characterai.js / part_004) -/

def selfHarmMsg : String := "Message was flagged for self harm content"
def missingCommandMsg : String := "Invalid response from WebSocket - missing command"
def emptyRespMsg : String := "Empty response from Character.AI API"
def emptyRespMsg2 : String := "Empty response from Character.AI API with new chat"
def allTokensFailedMsg : String := "All Character.AI tokens failed"
def typeErrorMsg : String := "TypeError: cannot read property of undefined"
def p1InvalidMsg : String := "Invalid response from Character.AI API - missing reply data"

/-! ## Stream Transport waiter (characterai.js, sendMessage, lines 678-794)

One sendMessage call registers a messageHandler on the shared WebSocket.
The handler inspects every inbound message; WsMessage models the parsed
JSON frame, HandlerAction what the handler does with it. -/

structure RawCandidate where
  candidate_id : Option String
  raw_content : Option String
  text : Option String
  is_final : Bool
deriving Repr, DecidableEq

structure RawAuthor where
  is_human : Bool
  name : Option String
deriving Repr, DecidableEq

structure RawTurn where
  turn_id : Option String
  author : Option RawAuthor
  candidates : List RawCandidate
deriving Repr, DecidableEq

structure WsMessage where
  request_id : Option String
  command : Option String
  comment : Option String
  turn : Option RawTurn
deriving Repr, DecidableEq

/-- One candidate of the normalized reply built by the messageHandler:
candidate_id is candidate.candidate_id, text is
candidate.raw_content || candidate.text (characterai.js lines 729-732). -/
structure NormCandidate where
  candidate_id : Option String
  text : Option String
deriving Repr, DecidableEq

/-- The normalized reply object (finalResponse in characterai.js lines
725-736, and the return shapes of part_001 sendMessage lines 593-683). -/
structure FinalResponse where
  turn_id : Option String
  author_name : String
  text : Option String
  candidates : List NormCandidate
deriving Repr, DecidableEq

/-- The get_primary_candidate method of the normalized reply: it returns
this.candidates[0] (undefined when the list is empty). -/
def getPrimaryCandidate (r : FinalResponse) : Option NormCandidate :=
  r.candidates.head?

/-- Construction of finalResponse from response.turn (characterai.js lines
725-736). An empty candidates list makes the JavaScript expression
response.turn.candidates[0].raw_content throw, which the surrounding catch
turns into a rejection: modelled as none. -/
def buildFinalResponse (t : RawTurn) : Option FinalResponse :=
  match t.candidates with
  | [] => none
  | c0 :: _ =>
    some { turn_id := t.turn_id,
           author_name :=
             match t.author with
             | some a => jsOrS a.name "Character"
             | none => "Character",
           text := jsOr c0.raw_content c0.text,
           candidates := t.candidates.map (fun c =>
             { candidate_id := c.candidate_id,
               text := jsOr c.raw_content c.text }) }

/-- The correlation filter at characterai.js lines 688-690: a message is
processed unless its request_id differs from the call's own requestId AND
its command is neither add_turn nor update_turn. -/
def passesFilter (reqId : String) (m : WsMessage) : Bool :=
  decide (m.request_id = some reqId) ||
    decide (m.command = some "add_turn") ||
    decide (m.command = some "update_turn")

inductive HandlerAction where
  | ignore
  | rejectWith (msg : String)
  | storeLatest (r : FinalResponse)
  | resolveWith (r : FinalResponse)
deriving Repr, DecidableEq

/-- The per-call messageHandler of sendMessage (characterai.js lines
683-748) applied to one inbound message. ignore models an early return,
rejectWith a reject(...), storeLatest updating finalResponse without
resolving (candidate not yet final), resolveWith cleanup-and-resolve. -/
def messageHandler (reqId : String) (m : WsMessage) : HandlerAction :=
  if ¬ passesFilter reqId m then .ignore
  else
    match m.command with
    | none => .rejectWith missingCommandMsg
    | some cmd =>
      if cmd = "" then .rejectWith missingCommandMsg
      else if cmd = "neo_error" then
        .rejectWith ("Character.AI API error: " ++ jsOrS m.comment "")
      else if cmd = "filter_user_input_self_harm" then
        .rejectWith selfHarmMsg
      else if cmd = "add_turn" ∨ cmd = "update_turn" then
        match m.turn with
        | none => .rejectWith typeErrorMsg
        | some t =>
          if (match t.author with | some a => a.is_human | none => false) then
            .ignore
          else
            let isFinal := match t.candidates with
              | c :: _ => c.is_final
              | [] => false
            match buildFinalResponse t with
            | none => .rejectWith typeErrorMsg
            | some r => if isFinal then .resolveWith r else .storeLatest r
      else .ignore

example :
    messageHandler "req-1"
      { request_id := some "req-1", command := some "pong",
        comment := none, turn := none } = .ignore := by decide

example :
    messageHandler "req-1"
      { request_id := some "req-2", command := some "create_chat_response",
        comment := none, turn := none } = .ignore := by decide

/-! ## HTTP sendMessage response processing (part_001, lines 587-687)

The older HTTP client normalizes the response of POST /chat/streaming/
through a cascade of shape checks: turn format, replies format, raw text
format, message format, and finally a regex scan of the serialized body
for a text field. P1RespData models response.data; fallbackTextMatch is
the capture of the regex over JSON.stringify(response.data) and hasKeys
whether Object.keys(response.data).length exceeds zero. -/

structure P1Candidate where
  candidate_id : Option String
  text : Option String
  raw_content : Option String
deriving Repr, DecidableEq

structure P1Turn where
  turn_id : Option String
  author_name : Option String
  candidates : List P1Candidate
deriving Repr, DecidableEq

structure P1Reply where
  id : Option String
  name : Option String
  text : Option String
deriving Repr, DecidableEq

structure P1RespData where
  turn : Option P1Turn
  replies : List P1Reply
  text : Option String
  message : Option String
  hasKeys : Bool
  fallbackTextMatch : Option String
deriving Repr, DecidableEq

/-- The turn-format branch (part_001 lines 589-605). -/
def p1TurnReply (reqId : String) (tn : P1Turn) (c0 : P1Candidate) : FinalResponse :=
  { turn_id := some (jsOrS (jsOr tn.turn_id c0.candidate_id) reqId),
    author_name := jsOrS tn.author_name "Character",
    text := some (jsOrS (jsOr c0.text c0.raw_content) ""),
    candidates := tn.candidates.map (fun c =>
      { candidate_id := some (jsOrS c.candidate_id reqId),
        text := some (jsOrS (jsOr c.text c.raw_content) "") }) }

/-- The regex-fallback branch (part_001 lines 663-684). -/
def p1TryRegex (reqId : String) (d : P1RespData) : Except String FinalResponse :=
  if d.hasKeys then
    match d.fallbackTextMatch with
    | some s =>
      if s = "" then .error p1InvalidMsg
      else .ok { turn_id := some reqId, author_name := "Character",
                 text := some s,
                 candidates := [{ candidate_id := some reqId, text := some s }] }
    | none => .error p1InvalidMsg
  else .error p1InvalidMsg

/-- The message-format branch (part_001 lines 645-660) and below. -/
def p1TryMessage (reqId : String) (d : P1RespData) : Except String FinalResponse :=
  match d.message with
  | some s =>
    if s = "" then p1TryRegex reqId d
    else .ok { turn_id := some reqId, author_name := "Character",
               text := some s,
               candidates := [{ candidate_id := some reqId, text := some s }] }
  | none => p1TryRegex reqId d

/-- The raw-text-format branch (part_001 lines 627-642) and below. -/
def p1TryText (reqId : String) (d : P1RespData) : Except String FinalResponse :=
  match d.text with
  | some s =>
    if s = "" then p1TryMessage reqId d
    else .ok { turn_id := some reqId, author_name := "Character",
               text := some s,
               candidates := [{ candidate_id := some reqId, text := some s }] }
  | none => p1TryMessage reqId d

/-- The replies-format branch (part_001 lines 608-624) and below. -/
def p1TryReplies (reqId : String) (d : P1RespData) : Except String FinalResponse :=
  match d.replies with
  | r0 :: _ =>
    .ok { turn_id := some (jsOrS r0.id reqId),
          author_name := jsOrS r0.name "Character",
          text := some (jsOrS r0.text ""),
          candidates := [{ candidate_id := some (jsOrS r0.id reqId),
                           text := some (jsOrS r0.text "") }] }
  | [] => p1TryText reqId d

/-- Response processing of part_001 sendMessage (lines 587-687): data none
models a falsy response.data; otherwise the cascade of shape checks runs
in source order, ending in the missing-reply-data throw. -/
def processHttpResponse (reqId : String) (data : Option P1RespData) :
    Except String FinalResponse :=
  match data with
  | none => .error p1InvalidMsg
  | some d =>
    match d.turn with
    | some tn =>
      match tn.candidates with
      | c0 :: _ => .ok (p1TurnReply reqId tn c0)
      | [] => p1TryReplies reqId d
    | none => p1TryReplies reqId d

/-! ## fetchMe (characterai.js, lines 222-341)

Session bootstrap discovers the account identity. The primary endpoint
GET /chat/user/ and then the neo endpoint GET /user/ are tried; the
response trees are probed along several paths for a truthy id. When
every probe fails (or the request itself throws, or the token is unset),
the source generates a fresh uuid, stores it as this.accountId and
returns { user_id: uuid }; the outer catch at line 329 funnels every
thrown error into that same fallback, so fetchMe never rejects. -/

structure MeInnerUser where
  id : Option String
  user_id : Option String
deriving Repr, DecidableEq

structure MeUser where
  id : Option String
  user : Option MeInnerUser
  user_id : Option String
deriving Repr, DecidableEq

structure MeResponse where
  user : Option MeUser
  status : Option String
  user_id : Option String
deriving Repr, DecidableEq

structure NeoUser where
  user_id : Option String
  id : Option String
deriving Repr, DecidableEq

structure NeoResponse where
  user : Option NeoUser
deriving Repr, DecidableEq

/-- JavaScript cascade step: if o is truthy return it, else continue. -/
def truthyOr (o : Option String) (k : Unit → Option String) : Option String :=
  match o with
  | some s => if s = "" then k () else some s
  | none => k ()

/-- The alternative-format check at characterai.js line 268:
status is OK and user_id truthy. -/
def statusExtract (r : MeResponse) : Option String :=
  if r.status = some "OK" then truthyOr r.user_id (fun _ => none) else none

/-- Identity extraction from the primary endpoint response, in source
order: user.id, user.user.id, user.user_id, user.user.user_id
(characterai.js lines 243-261), then the alternative format (line 268). -/
def primaryExtract (r : MeResponse) : Option String :=
  match r.user with
  | some u =>
    truthyOr u.id (fun _ =>
      truthyOr (match u.user with | some iu => iu.id | none => none) (fun _ =>
        truthyOr u.user_id (fun _ =>
          truthyOr (match u.user with | some iu => iu.user_id | none => none)
            (fun _ => statusExtract r))))
  | none => statusExtract r

/-- Identity extraction from the neo endpoint response: user.user_id then
user.id (characterai.js lines 293-306). -/
def neoExtract (n : NeoResponse) : Option String :=
  match n.user with
  | some u => truthyOr u.user_id (fun _ => truthyOr u.id (fun _ => none))
  | none => none

/-- Full identity discovery over both endpoints; a none endpoint argument
models the corresponding axios call throwing (its inner catch falls
through to the next option). -/
def extractAccountId (p : Option MeResponse) (n : Option NeoResponse) :
    Option String :=
  match p with
  | some r =>
    match primaryExtract r with
    | some i => some i
    | none => match n with | some nr => neoExtract nr | none => none
  | none => match n with | some nr => neoExtract nr | none => none

/-- The mutable client state relevant to session bootstrap:
this.accountId of the CharacterAI instance. -/
structure ClientState where
  accountId : Option String
deriving Repr, DecidableEq

/-- What fetchMe returned: a user object from a successful extraction, or
the fabricated fallback object { user_id: uuid } (lines 319-325, 336-339). -/
inductive MeResult where
  | userObj (accountId : String)
  | fabricated (user_id : String)
deriving Repr, DecidableEq

/-- fetchMe (characterai.js lines 222-341). tokenSet false models an unset
this.token: the throw at line 225 is caught by the outer catch, which also
fabricates. fetchMe is total: it never rejects. -/
def fetchMe (tokenSet : Bool) (p : Option MeResponse) (n : Option NeoResponse)
    (uuid : String) (_st : ClientState) : ClientState × MeResult :=
  if tokenSet then
    match extractAccountId p n with
    | some i => ({ accountId := some i }, .userObj i)
    | none => ({ accountId := some uuid }, .fabricated uuid)
  else ({ accountId := some uuid }, .fabricated uuid)

/-- The ensureSession step of sendMessage and createChat (characterai.js
lines 615-618 and 354-357): fetchMe runs only when this.accountId is
falsy. Returns the new state and the number of fetchMe calls made. -/
def ensureAccount (tokenSet : Bool) (p : Option MeResponse)
    (n : Option NeoResponse) (uuid : String) (st : ClientState) :
    ClientState × Nat :=
  if jsTruthy st.accountId then (st, 0)
  else ((fetchMe tokenSet p n uuid st).1, 1)

/-! ## getChatIdFromHistId (characterai.js, lines 878-911) -/

/-- The inner body of getChatIdFromHistId: backend is the neo lookup,
where error () models the axios call throwing (handled by the inner catch,
falling through to return histId), ok none a response without a truthy
chat_id, and ok (some c) a response carrying chat_id c. The token-unset
throw at line 881 escapes the body. -/
def getChatIdBody (tokenSet : Bool) (backend : Except Unit (Option String))
    (histId : String) : Except String String :=
  if tokenSet then
    match backend with
    | .ok (some c) => if c = "" then .ok histId else .ok c
    | .ok none => .ok histId
    | .error _ => .ok histId
  else .error "Token not set. Please call setToken() first."

/-- getChatIdFromHistId with its outer catch (line 907): any escaped error
falls back to returning the input histId, so the function always returns
a chat id. -/
def getChatIdFromHistId (tokenSet : Bool)
    (backend : Except Unit (Option String)) (histId : String) : String :=
  match getChatIdBody tokenSet backend histId with
  | .ok c => c
  | .error _ => histId

example : getChatIdFromHistId true (.ok (some "chat-7")) "hist-1" = "chat-7" := by
  decide

example : getChatIdFromHistId true (.error ()) "hist-1" = "hist-1" := by decide

example : getChatIdFromHistId false (.ok (some "chat-7")) "hist-1" = "hist-1" := by
  decide

/-! ## Message Exchange Protocol: callCharacterAIAPI (part_004, lines 2915-3268)

The send loop tries every Character.AI token: each iteration resolves a
chat id (hist URL, activeChannels store, client activeChats store, or
createChat), sends the message, and on a send error re-creates the chat
once and retries once; any failure rotates to the next token. The backend
behaviour of one iteration is abstracted as an AttemptEnv oracle:
histLookup is the total getChatIdFromHistId behaviour for that iteration,
create1 the outcome of the initial createChat (ok carries the extracted
chat id, err models both a rejected createChat and a response without any
extractable id), send1 the outcome of the first sendMessage (ok carries
response.text, with the empty string standing for a falsy response or
text), create2 the outcome of the recovery createChat and send2 of the
retried sendMessage. -/

inductive SendOutcome where
  | ok (text : String)
  | err (e : String)
deriving Repr, DecidableEq

inductive CreateOutcome where
  | ok (chatId : String)
  | err (e : String)
deriving Repr, DecidableEq

structure AttemptEnv where
  histLookup : String → String
  create1 : CreateOutcome
  send1 : SendOutcome
  create2 : CreateOutcome
  send2 : SendOutcome

/-- The two conversation stores keyed by the channel id: channel is the
activeChannels entry (outer Option: activeChannels.has(channelId); inner:
its caiChatId field, possibly unset), client is the module-level
activeChats entry of the CharacterAI client, which survives across loop
iterations because the map is module state shared by all instances. -/
structure Stores where
  channel : Option (Option String)
  client : Option String
deriving Repr, DecidableEq

/-- Write a chat id into both stores as the source does after obtaining
one (activeChats.set always; caiChatId only when activeChannels has the
channel; part_004 lines 3049-3059, 3129-3139, 3215-3225). -/
def saveChatId (s : Stores) (c : String) : Stores :=
  { channel := match s.channel with
      | some _ => some (some c)
      | none => none,
    client := some c }

/-- Conversation resolution of one iteration (part_004 lines 3041-3151):
a hist id found in a message takes precedence and is translated through
getChatIdFromHistId, then the activeChannels caiChatId, then the client
activeChats entry, and only otherwise is a chat created. Returns the
resolution outcome, the updated stores and the number of createChat calls. -/
def resolveChat (env : AttemptEnv) (histId : Option String) (s : Stores) :
    Except String String × Stores × Nat :=
  match histId with
  | some h =>
    let c := env.histLookup h
    (.ok c, saveChatId s c, 0)
  | none =>
    match s.channel with
    | some entry =>
      if jsTruthy entry then
        (.ok (jsOrS entry ""), s, 0)
      else
        match s.client with
        | some c => (.ok c, saveChatId s c, 0)
        | none =>
          match env.create1 with
          | .ok cid => (.ok cid, saveChatId s cid, 1)
          | .err e => (.error e, s, 1)
    | none =>
      match s.client with
      | some c => (.ok c, saveChatId s c, 0)
      | none =>
        match env.create1 with
        | .ok cid => (.ok cid, saveChatId s cid, 1)
        | .err e => (.error e, s, 1)

/-- Observable call counts of one loop iteration: createChat calls, sendMessage
calls, and createChat calls made in recovery after a failed send. -/
structure IterStats where
  creates : Nat
  sends : Nat
  postFailureCreates : Nat
deriving Repr, DecidableEq

inductive IterOut where
  | success (text : String)
  | fail (e : String)
deriving Repr, DecidableEq

/-- One iteration of the token loop (part_004 lines 2967-3263): resolve a
chat, send; an empty/falsy response text fails the iteration (lines
3163-3171); a send rejection triggers exactly one recovery createChat and
one retried send (lines 3175-3254), whose error replaces the original one
as lastError. fail e means the iteration sets lastError to e, rotates the
token and continues. -/
def runIter (env : AttemptEnv) (histId : Option String) (s : Stores) :
    IterOut × Stores × IterStats :=
  match resolveChat env histId s with
  | (.error e, s1, cr) => (.fail e, s1, { creates := cr, sends := 0, postFailureCreates := 0 })
  | (.ok _chatId, s1, cr) =>
    match env.send1 with
    | .ok t =>
      if t = "" then (.fail emptyRespMsg, s1, { creates := cr, sends := 1, postFailureCreates := 0 })
      else (.success t, s1, { creates := cr, sends := 1, postFailureCreates := 0 })
    | .err _e =>
      match env.create2 with
      | .err e2 =>
        (.fail e2, s1, { creates := cr + 1, sends := 1, postFailureCreates := 1 })
      | .ok cid2 =>
        let s2 := saveChatId s1 cid2
        match env.send2 with
        | .ok t =>
          if t = "" then (.fail emptyRespMsg2, s2, { creates := cr + 1, sends := 2, postFailureCreates := 1 })
          else (.success t, s2, { creates := cr + 1, sends := 2, postFailureCreates := 1 })
        | .err e3 =>
          (.fail e3, s2, { creates := cr + 1, sends := 2, postFailureCreates := 1 })

/-- The while loop over tokens (part_004 lines 2967-3267): fuel is the
number of tokens still allowed (the loop guard keysTriedCount below the
pool size), k the iteration index, lastErr the running lastError. When the
fuel runs out, the source throws lastError, or the generic all-tokens
failure when no iteration ever ran. Returns the overall outcome, the
final stores and the per-iteration stats in order. -/
def runLoopAux (envs : Nat → AttemptEnv) (histId : Option String) :
    Nat → Nat → Stores → Option String →
    Except String String × Stores × List IterStats
  | 0, _k, s, lastErr => (.error (lastErr.getD allTokensFailedMsg), s, [])
  | fuel + 1, k, s, _lastErr =>
    match runIter (envs k) histId s with
    | (.success t, s1, st) => (.ok t, s1, [st])
    | (.fail e, s1, st) =>
      match runLoopAux envs histId fuel (k + 1) s1 (some e) with
      | (r, s2, sts) => (r, s2, st :: sts)

/-- callCharacterAIAPI over a pool of nTokens tokens (part_004 lines
2915-3268), with the per-iteration backend behaviour envs, the hist id
found in the messages (if any) and the initial stores. -/
def callCharacterAIAPIModel (nTokens : Nat) (envs : Nat → AttemptEnv)
    (histId : Option String) (s0 : Stores) :
    Except String String × Stores × List IterStats :=
  runLoopAux envs histId nTokens 0 s0 none

/-- A fixed oracle used in concrete runs. -/
def sampleEnv : AttemptEnv :=
  { histLookup := fun h => h,
    create1 := .ok "chat-new",
    send1 := .ok "hello there",
    create2 := .ok "chat-new-2",
    send2 := .ok "hello again" }

example :
    (callCharacterAIAPIModel 1 (fun _ => sampleEnv) none
      { channel := some (some "chat-0"), client := none }).1 = .ok "hello there" := rfl

example :
    (callCharacterAIAPIModel 0 (fun _ => sampleEnv) none
      { channel := none, client := none }).1 = .error allTokensFailedMsg := rfl

/-! ## Well-formedness of normalized replies -/

/-- A normalized reply is well formed when its candidates list is
non-empty, its text equals the text of the first candidate, and
get_primary_candidate returns exactly that first candidate. -/
def replyWF (r : FinalResponse) : Prop :=
  ∃ c0 rest, r.candidates = c0 :: rest ∧ r.text = c0.text ∧
    getPrimaryCandidate r = some c0

theorem p1TurnReply_wf (q : String) (tn : P1Turn) (c0 : P1Candidate)
    (rest : List P1Candidate) (h : tn.candidates = c0 :: rest) :
    replyWF (p1TurnReply q tn c0) := by
  unfold replyWF p1TurnReply getPrimaryCandidate
  rw [h]
  exact ⟨_, _, rfl, rfl, rfl⟩

theorem p1TryRegex_wf (q : String) (d : P1RespData) (r : FinalResponse)
    (h : p1TryRegex q d = .ok r) : replyWF r := by
  unfold p1TryRegex at h
  split at h
  · split at h
    · split at h
      · simp at h
      · simp only [Except.ok.injEq] at h
        subst h
        exact ⟨_, [], rfl, rfl, rfl⟩
    · simp at h
  · simp at h

theorem p1TryMessage_wf (q : String) (d : P1RespData) (r : FinalResponse)
    (h : p1TryMessage q d = .ok r) : replyWF r := by
  unfold p1TryMessage at h
  split at h
  · split at h
    · exact p1TryRegex_wf q d r h
    · simp only [Except.ok.injEq] at h
      subst h
      exact ⟨_, [], rfl, rfl, rfl⟩
  · exact p1TryRegex_wf q d r h

theorem p1TryText_wf (q : String) (d : P1RespData) (r : FinalResponse)
    (h : p1TryText q d = .ok r) : replyWF r := by
  unfold p1TryText at h
  split at h
  · split at h
    · exact p1TryMessage_wf q d r h
    · simp only [Except.ok.injEq] at h
      subst h
      exact ⟨_, [], rfl, rfl, rfl⟩
  · exact p1TryMessage_wf q d r h

theorem p1TryReplies_wf (q : String) (d : P1RespData) (r : FinalResponse)
    (h : p1TryReplies q d = .ok r) : replyWF r := by
  unfold p1TryReplies at h
  split at h
  · simp only [Except.ok.injEq] at h
    subst h
    exact ⟨_, [], rfl, rfl, rfl⟩
  · exact p1TryText_wf q d r h

theorem buildFinalResponse_wf (t : RawTurn) (r : FinalResponse)
    (h : buildFinalResponse t = some r) : replyWF r := by
  rcases ht : t.candidates with _ | ⟨c, cs⟩
  · simp [buildFinalResponse, ht] at h
  · simp only [buildFinalResponse, ht, Option.some.injEq] at h
    subst h
    unfold replyWF getPrimaryCandidate
    exact ⟨_, _, rfl, rfl, rfl⟩

theorem processHttpResponse_wf (q : String) (d : Option P1RespData)
    (r : FinalResponse) (h : processHttpResponse q d = .ok r) : replyWF r := by
  unfold processHttpResponse at h
  split at h
  · simp at h
  · split at h
    · split at h
      · simp only [Except.ok.injEq] at h
        subst h
        exact p1TurnReply_wf q _ _ _ (by assumption)
      · exact p1TryReplies_wf q _ r h
    · exact p1TryReplies_wf q _ r h

/-! ## Claim C10 -/

/-- Claim C10 (confirmed): every successfully normalized reply — both the
finalResponse built by the WebSocket sendMessage handler in characterai.js
and every reply shape produced by the HTTP sendMessage of part_001 — has a
non-empty candidates list, a text field equal to the text of its first
candidate, and a get_primary_candidate that returns exactly the first
element of the candidates list. -/
theorem C10_normalized_reply_invariants :
    (∀ (t : RawTurn) (r : FinalResponse),
        buildFinalResponse t = some r → replyWF r) ∧
    (∀ (reqId : String) (d : Option P1RespData) (r : FinalResponse),
        processHttpResponse reqId d = .ok r → replyWF r) :=
  ⟨buildFinalResponse_wf, processHttpResponse_wf⟩

def c10Turn : RawTurn :=
  { turn_id := some "turn-1",
    author := some { is_human := false, name := some "Setsuna" },
    candidates := [{ candidate_id := some "cand-1", raw_content := some "hi!",
                     text := none, is_final := true }] }

def c10Reply : FinalResponse :=
  { turn_id := some "turn-1", author_name := "Setsuna", text := some "hi!",
    candidates := [{ candidate_id := some "cand-1", text := some "hi!" }] }

def c10Data : P1RespData :=
  { turn := none, replies := [{ id := some "r-1", name := some "Setsuna",
                                text := some "hello!" }],
    text := none, message := none, hasKeys := true, fallbackTextMatch := none }

def c10HttpReply : FinalResponse :=
  { turn_id := some "r-1", author_name := "Setsuna", text := some "hello!",
    candidates := [{ candidate_id := some "r-1", text := some "hello!" }] }

/-- Witness for C10 at concrete replies of both normalizers. -/
theorem C10_witness :
    (buildFinalResponse c10Turn = some c10Reply ∧ replyWF c10Reply) ∧
    (processHttpResponse "rq-1" (some c10Data) = .ok c10HttpReply ∧
      replyWF c10HttpReply) :=
  ⟨⟨rfl, C10_normalized_reply_invariants.1 c10Turn c10Reply rfl⟩,
   ⟨rfl, C10_normalized_reply_invariants.2 "rq-1" (some c10Data) c10HttpReply rfl⟩⟩

/-! ## Claim C1 -/

/-- An add_turn frame generated for a different call: its request_id is
not the waiter's own. -/
def c1ForeignMsg : WsMessage :=
  { request_id := some "other-call",
    command := some "add_turn",
    comment := none,
    turn := some { turn_id := some "t-9",
                   author := some { is_human := false, name := some "Bot" },
                   candidates := [{ candidate_id := some "cand-9",
                                    raw_content := some "foreign reply",
                                    text := none, is_final := true }] } }

/-- Claim C1 is false on the code: the per-call waiter of sendMessage does
not process only messages carrying its own correlationId. An add_turn
message whose request_id belongs to a different call passes the filter at
characterai.js lines 688-690 and the waiter even resolves with that
foreign reply, so concurrent calls can receive each other's replies. -/
theorem C1_counterexample :
    c1ForeignMsg.request_id ≠ some "my-call" ∧
    messageHandler "my-call" c1ForeignMsg ≠ .ignore ∧
    messageHandler "my-call" c1ForeignMsg =
      .resolveWith { turn_id := some "t-9", author_name := "Bot",
                     text := some "foreign reply",
                     candidates := [{ candidate_id := some "cand-9",
                                      text := some "foreign reply" }] } := by
  refine ⟨by decide, by decide, by decide⟩

/-- Claim C1 (amended): the waiter ignores an inbound message whose
request_id differs from its own only when the command is neither add_turn
nor update_turn; add_turn messages always pass the correlation filter,
whatever their request_id. -/
theorem C1_amended_correlation_filter (reqId : String) (m : WsMessage) :
    (m.request_id ≠ some reqId → m.command ≠ some "add_turn" →
      m.command ≠ some "update_turn" → messageHandler reqId m = .ignore) ∧
    (m.command = some "add_turn" → passesFilter reqId m = true) := by
  constructor
  · intro h1 h2 h3
    unfold messageHandler
    have hf : passesFilter reqId m = false := by
      simp [passesFilter, h1, h2, h3]
    simp [hf]
  · intro h
    simp [passesFilter, h]

/-- A neo_error frame for a different call, ignored by the waiter. -/
def c1IgnoredMsg : WsMessage :=
  { request_id := some "other-call", command := some "neo_error",
    comment := some "boom", turn := none }

/-- Witness for the amended C1 at concrete messages. -/
theorem C1_amended_witness :
    (c1IgnoredMsg.request_id ≠ some "my-call" ∧
      c1IgnoredMsg.command ≠ some "add_turn" ∧
      c1IgnoredMsg.command ≠ some "update_turn" ∧
      messageHandler "my-call" c1IgnoredMsg = .ignore) ∧
    (c1ForeignMsg.command = some "add_turn" ∧
      passesFilter "my-call" c1ForeignMsg = true) :=
  ⟨⟨by decide, by decide, by decide,
    (C1_amended_correlation_filter "my-call" c1IgnoredMsg).1
      (by decide) (by decide) (by decide)⟩,
   ⟨by decide, (C1_amended_correlation_filter "my-call" c1ForeignMsg).2 (by decide)⟩⟩

/-! ## Claim C4 -/

/-- Claim C4 is false on the code: when both identity endpoints fail with
an authentication-class error (modelled by both endpoint results being
absent), fetchMe does not discard the session and propagate the failure —
it fabricates a fresh uuid, installs it as this.accountId and returns a
success object { user_id: uuid } (characterai.js lines 319-325, 336-339). -/
theorem C4_counterexample :
    fetchMe true none none "fab-uuid-1" { accountId := none } =
      ({ accountId := some "fab-uuid-1" }, .fabricated "fab-uuid-1") := rfl

/-- Claim C4 (amended): whenever both identity endpoints fail (and also
when the token is unset), fetchMe never propagates the failure; it always
returns success with a fabricated uuid account identity installed into the
client state. -/
theorem C4_amended_fabricated_identity (tokenSet : Bool) (uuid : String)
    (st : ClientState) :
    fetchMe tokenSet none none uuid st =
      ({ accountId := some uuid }, .fabricated uuid) := by
  cases tokenSet <;> rfl

/-! ## Claim C9 -/

/-- Claim C9 (confirmed): getChatIdFromHistId is total over its error
cases — whenever the token is unset, the backend lookup throws, or the
response lacks a truthy chat_id, it returns the input histId unchanged;
and any other output is exactly a chat_id carried by the backend
response. -/
theorem C9_histid_total (tokenSet : Bool)
    (backend : Except Unit (Option String)) (histId : String) :
    ((tokenSet = false ∨ backend = .error () ∨ backend = .ok none ∨
        backend = .ok (some "")) →
      getChatIdFromHistId tokenSet backend histId = histId) ∧
    (getChatIdFromHistId tokenSet backend histId = histId ∨
      backend = .ok (some (getChatIdFromHistId tokenSet backend histId))) := by
  cases tokenSet with
  | false =>
    refine ⟨fun _ => rfl, Or.inl rfl⟩
  | true =>
    constructor
    · rintro (h | h | h | h)
      · exact absurd h (by simp)
      · subst h; rfl
      · subst h; rfl
      · subst h; rfl
    · rcases backend with u | o
      · exact Or.inl rfl
      · rcases o with _ | c
        · exact Or.inl rfl
        · by_cases hc : c = ""
          · subst hc; exact Or.inl rfl
          · right
            simp [getChatIdFromHistId, getChatIdBody, hc]

/-- Witness for C9: a failing backend lookup falls back to the hist id. -/
theorem C9_witness :
    getChatIdFromHistId true (.error ()) "hist-99" = "hist-99" :=
  (C9_histid_total true (.error ()) "hist-99").1 (Or.inr (Or.inl rfl))

/-! ## Shared facts about one loop iteration -/

/-- When no hist URL is present and the activeChannels store already holds
a truthy chat id, resolution returns it unchanged, leaves the stores
untouched and calls createChat zero times (part_004 lines 3066-3070). -/
theorem resolveChat_store_hit (env : AttemptEnv) (s : Stores) (c : String)
    (hchan : s.channel = some (some c)) (hc : c ≠ "") :
    resolveChat env none s = (.ok c, s, 0) := by
  simp [resolveChat, hchan, jsTruthy, jsOrS, hc]

/-- Characterization of one iteration whose first send fails while the
chat id came from the activeChannels store: exactly one recovery
createChat runs, and when it succeeds exactly one retried send runs whose
outcome decides the iteration; the original send error is discarded. -/
theorem runIter_sendfail_chr (env : AttemptEnv) (s : Stores) (c e : String)
    (hchan : s.channel = some (some c)) (hc : c ≠ "")
    (hsend : env.send1 = .err e) :
    runIter env none s =
      (match env.create2 with
       | .err e2 => (.fail e2, s, ⟨1, 1, 1⟩)
       | .ok cid2 =>
         match env.send2 with
         | .ok t =>
           if t = "" then (.fail emptyRespMsg2, saveChatId s cid2, ⟨1, 2, 1⟩)
           else (.success t, saveChatId s cid2, ⟨1, 2, 1⟩)
         | .err e3 => (.fail e3, saveChatId s cid2, ⟨1, 2, 1⟩)) := by
  unfold runIter
  rw [resolveChat_store_hit env s c hchan hc, hsend]

/-! ## Claim C2 -/

/-- Backend behaviour where the first send is rejected by the self-harm
filter (a terminal moderation error) and the recovery createChat then
fails with a network error. -/
def c2Env : AttemptEnv :=
  { histLookup := fun h => h,
    create1 := .ok "unused-create",
    send1 := .err selfHarmMsg,
    create2 := .err "ECONNRESET",
    send2 := .ok "unused-send" }

def c2Store : Stores := { channel := some (some "chat-0"), client := none }

/-- Claim C2 is false on the code: after the terminal self-harm rejection
the send operation does not stop — the catch at part_004 line 3175 treats
every send error as a possibly-invalid chat, attempts a recovery
createChat (postFailureCreates = 1), rotates the credential, and the error
finally propagated is the recovery's network error, masking the terminal
moderation error. -/
theorem C2_counterexample :
    (callCharacterAIAPIModel 1 (fun _ => c2Env) none c2Store).1 =
      .error "ECONNRESET" ∧
    (callCharacterAIAPIModel 1 (fun _ => c2Env) none c2Store).2.2 =
      [⟨1, 1, 1⟩] ∧
    c2Env.send1 = .err selfHarmMsg ∧
    ("ECONNRESET" : String) ≠ selfHarmMsg :=
  ⟨rfl, rfl, rfl, by decide⟩

/-- Claim C2 (amended): a terminal content-policy rejection of the send is
handled like any other send failure — the conversation is re-created once
and the send retried once for the current credential before rotating —
and the error recorded for propagation is the last error of the recovery
attempt, which can mask the terminal error as a different kind. -/
theorem C2_amended_terminal_retried (env : AttemptEnv) (s : Stores)
    (c e : String)
    (hchan : s.channel = some (some c)) (hc : c ≠ "")
    (hsend : env.send1 = .err e) :
    (runIter env none s).2.2.postFailureCreates = 1 ∧
    (∀ e2, env.create2 = .err e2 → (runIter env none s).1 = .fail e2) ∧
    (∀ cid2 e3, env.create2 = .ok cid2 → env.send2 = .err e3 →
      (runIter env none s).1 = .fail e3) := by
  have hch := runIter_sendfail_chr env s c e hchan hc hsend
  refine ⟨?_, ?_, ?_⟩
  · rw [hch]
    cases hc2 : env.create2 with
    | err e2 => simp
    | ok cid2 =>
      cases hs2 : env.send2 with
      | ok t => by_cases ht : t = "" <;> simp [ht]
      | err e3 => simp
  · intro e2 h2
    rw [hch, h2]
  · intro cid2 e3 h2 h3
    rw [hch, h2, h3]

/-- Witness for the amended C2: the self-harm rejection triggers one
recovery createChat, and its failure replaces the terminal error. -/
theorem C2_amended_witness :
    (c2Store.channel = some (some "chat-0") ∧ ("chat-0" : String) ≠ "" ∧
      c2Env.send1 = .err selfHarmMsg) ∧
    ((runIter c2Env none c2Store).2.2.postFailureCreates = 1 ∧
      (runIter c2Env none c2Store).1 = .fail "ECONNRESET") :=
  ⟨⟨rfl, by decide, rfl⟩,
    ⟨(C2_amended_terminal_retried c2Env c2Store "chat-0" selfHarmMsg rfl
        (by decide) rfl).1,
      (C2_amended_terminal_retried c2Env c2Store "chat-0" selfHarmMsg rfl
        (by decide) rfl).2.1 "ECONNRESET" rfl⟩⟩

/-! ## Claim C3 -/

def c3Env1 : AttemptEnv :=
  { histLookup := fun h => h,
    create1 := .ok "x1",
    send1 := .err "err-send1-cred1",
    create2 := .ok "rechat-1",
    send2 := .err "err-send2-cred1" }

def c3Env2 : AttemptEnv :=
  { histLookup := fun h => h,
    create1 := .ok "x2",
    send1 := .err "err-send1-cred2",
    create2 := .ok "rechat-2",
    send2 := .err "err-send2-cred2" }

def c3Envs : Nat → AttemptEnv := fun k => if k = 0 then c3Env1 else c3Env2

def c3Store : Stores := { channel := some (some "chat-0"), client := none }

/-- Claim C3 is false on the code: with a pool of 2 tokens and every
attempt failing transiently, the loop throws only lastError — the single
error of the very last attempt — not an aggregated ExhaustedError carrying
(pool size times chain length) sub-errors; the three earlier errors are
absent from the propagated failure. -/
theorem C3_counterexample :
    (callCharacterAIAPIModel 2 c3Envs none c3Store).1 =
      .error "err-send2-cred2" ∧
    ("err-send2-cred2" : String) ≠ "err-send1-cred1" ∧
    ("err-send2-cred2" : String) ≠ "err-send2-cred1" ∧
    ("err-send2-cred2" : String) ≠ "err-send1-cred2" :=
  ⟨rfl, by decide, by decide, by decide⟩

/-- Claim C3 (amended): when every strategy fails for every credential,
callCharacterAIAPI throws only the single most recent error (the running
lastError of the final attempt); earlier per-strategy errors are logged
but not aggregated into the propagated failure. -/
theorem C3_amended_last_error_only (eA eB eC eD : String) :
    (callCharacterAIAPIModel 2
      (fun k => if k = 0
        then { histLookup := fun h => h, create1 := .ok "x1",
               send1 := .err eA, create2 := .ok "r1", send2 := .err eB }
        else { histLookup := fun h => h, create1 := .ok "x2",
               send1 := .err eC, create2 := .ok "r2", send2 := .err eD })
      none { channel := some (some "chat-0"), client := none }).1 =
      .error eD := rfl

/-! ## Claim C5 -/

/-- Claim C5 (confirmed): a send failure (in particular one reporting an
invalid conversation handle) triggers, within the current credential
attempt, exactly one re-creation and at most one retried send: the first
conjunct bounds every iteration by one recovery createChat and two sends
unconditionally, and the second shows that when the first send fails on a
cached handle, exactly one createChat runs, and a successful re-creation
replaces the cached handle in both stores and is followed by exactly one
retried send. -/
theorem C5_recreate_retry_once :
    (∀ (env : AttemptEnv) (histId : Option String) (s : Stores),
      (runIter env histId s).2.2.postFailureCreates ≤ 1 ∧
      (runIter env histId s).2.2.sends ≤ 2) ∧
    (∀ (env : AttemptEnv) (s : Stores) (c e : String),
      s.channel = some (some c) → c ≠ "" → env.send1 = .err e →
      (runIter env none s).2.2.creates = 1 ∧
      (runIter env none s).2.2.postFailureCreates = 1 ∧
      (∀ cid2, env.create2 = .ok cid2 →
        (runIter env none s).2.1 = saveChatId s cid2 ∧
        (runIter env none s).2.2.sends = 2)) := by
  constructor
  · intro env histId s
    rcases hR : resolveChat env histId s with ⟨r, s1, cr⟩
    cases r with
    | error e => simp [runIter, hR]
    | ok v =>
      cases hS : env.send1 with
      | ok t => by_cases ht : t = "" <;> simp [runIter, hR, hS, ht]
      | err e1 =>
        cases hC : env.create2 with
        | err e2 => simp [runIter, hR, hS, hC]
        | ok cid2 =>
          cases hS2 : env.send2 with
          | ok t2 => by_cases ht2 : t2 = "" <;> simp [runIter, hR, hS, hC, hS2, ht2]
          | err e3 => simp [runIter, hR, hS, hC, hS2]
  · intro env s c e hchan hc hsend
    have hch := runIter_sendfail_chr env s c e hchan hc hsend
    refine ⟨?_, ?_, ?_⟩
    · rw [hch]
      cases hc2 : env.create2 with
      | err e2 => simp
      | ok cid2 =>
        cases hs2 : env.send2 with
        | ok t => by_cases ht : t = "" <;> simp [ht]
        | err e3 => simp
    · rw [hch]
      cases hc2 : env.create2 with
      | err e2 => simp
      | ok cid2 =>
        cases hs2 : env.send2 with
        | ok t => by_cases ht : t = "" <;> simp [ht]
        | err e3 => simp
    · intro cid2 h2
      rw [hch, h2]
      cases hs2 : env.send2 with
      | ok t => by_cases ht : t = "" <;> simp [ht]
      | err e3 => simp

def c5Env : AttemptEnv :=
  { histLookup := fun h => h,
    create1 := .ok "unused-create",
    send1 := .err "Chat not found",
    create2 := .ok "fresh-chat",
    send2 := .ok "retry reply" }

def c5Store : Stores := { channel := some (some "stale-chat"), client := none }

/-- Witness for C5: an invalid-conversation send error on a cached handle
leads to one re-creation, replacement of the handle and one retried send. -/
theorem C5_witness :
    (c5Store.channel = some (some "stale-chat") ∧
      ("stale-chat" : String) ≠ "" ∧ c5Env.send1 = .err "Chat not found") ∧
    ((runIter c5Env none c5Store).2.2.creates = 1 ∧
      (runIter c5Env none c5Store).2.2.postFailureCreates = 1 ∧
      (runIter c5Env none c5Store).2.1 = saveChatId c5Store "fresh-chat" ∧
      (runIter c5Env none c5Store).2.2.sends = 2) :=
  ⟨⟨rfl, by decide, rfl⟩, by
    have h := C5_recreate_retry_once.2 c5Env c5Store "stale-chat"
      "Chat not found" rfl (by decide) rfl
    exact ⟨h.1, h.2.1, (h.2.2 "fresh-chat" rfl).1, (h.2.2 "fresh-chat" rfl).2⟩⟩

/-! ## Claim C7 -/

/-- Claim C7 is false on the code: with an empty credential pool the while
loop never runs and the function throws the generic plain
Error("All Character.AI tokens failed") — the very fallback of the
exhaustion throw site at part_004 line 3267 — not a distinct
ConfigurationError kind; no attempt and no rotation happens (the stats
list is empty), so only the distinct-error-kind part of the claim fails. -/
theorem C7_counterexample :
    callCharacterAIAPIModel 0 (fun _ => sampleEnv) none
        { channel := none, client := none } =
      (.error allTokensFailedMsg, { channel := none, client := none }, []) := rfl

/-- Claim C7 (amended): with an empty pool every send fails immediately —
zero iterations, zero createChat or sendMessage calls, zero rotations —
but with the same plain error used by the exhaustion path
(Error("All Character.AI tokens failed")); the source has no separate
ConfigurationError kind. -/
theorem C7_amended_empty_pool (envs : Nat → AttemptEnv)
    (histId : Option String) (s0 : Stores) :
    callCharacterAIAPIModel 0 envs histId s0 =
      (.error allTokensFailedMsg, s0, []) := rfl

/-! ## Claim C8 -/

def c8Env : AttemptEnv :=
  { histLookup := fun h => h,
    create1 := .ok "never-created",
    send1 := .ok "x",
    create2 := .ok "y",
    send2 := .ok "z" }

/-- Claim C8 is false on the code: for a channel whose store already holds
the handle "old-chat", a message containing a Character.AI hist URL makes
resolution return the URL-derived id instead of the stored handle — the
hist branch at part_004 lines 3042-3065 takes precedence over the stored
chat id — and the stores are re-pointed at the new id (here histLookup
models the neo lookup failing, so getChatIdFromHistId returns the hist id
itself). No createChat runs, but the existing handle is not returned
unchanged. -/
theorem C8_counterexample :
    resolveChat c8Env (some "hist-42")
        { channel := some (some "old-chat"), client := none } =
      (.ok "hist-42",
        { channel := some (some "hist-42"), client := some "hist-42" }, 0) ∧
    ("hist-42" : String) ≠ "old-chat" :=
  ⟨rfl, by decide⟩

/-- Claim C8 (amended): provided no message supplies a Character.AI hist
URL, resolving a conversationKey that already has a stored handle returns
that handle unchanged, creates no conversation and leaves the stores
untouched; since each store maps a channel id to at most one chat id, at
most one external conversation id is associated with a key at a time (a
hist URL re-points the association rather than adding a second one). -/
theorem C8_amended_store_hit (env : AttemptEnv) (s : Stores) (c : String)
    (hchan : s.channel = some (some c)) (hc : c ≠ "") :
    resolveChat env none s = (.ok c, s, 0) :=
  resolveChat_store_hit env s c hchan hc

/-- Witness for the amended C8 at a concrete store. -/
theorem C8_amended_witness :
    ((Stores.mk (some (some "kept-chat")) none).channel =
        some (some "kept-chat") ∧ ("kept-chat" : String) ≠ "") ∧
    resolveChat c8Env none { channel := some (some "kept-chat"), client := none } =
      (.ok "kept-chat", { channel := some (some "kept-chat"), client := none }, 0) :=
  ⟨⟨rfl, by decide⟩,
    C8_amended_store_hit c8Env
      { channel := some (some "kept-chat"), client := none } "kept-chat"
      rfl (by decide)⟩

/-! ## Claim C6 -/

theorem truthyOr_ne_empty (o : Option String) (k : Unit → Option String)
    (hk : ∀ j, k () = some j → j ≠ "") :
    ∀ i, truthyOr o k = some i → i ≠ "" := by
  intro i h
  cases o with
  | none =>
    simp only [truthyOr] at h
    exact hk i h
  | some s =>
    simp only [truthyOr] at h
    by_cases hs : s = ""
    · rw [if_pos hs] at h
      exact hk i h
    · rw [if_neg hs] at h
      simp only [Option.some.injEq] at h
      subst h
      exact hs

theorem statusExtract_ne_empty (r : MeResponse) :
    ∀ i, statusExtract r = some i → i ≠ "" := by
  intro i h
  unfold statusExtract at h
  split at h
  · refine truthyOr_ne_empty r.user_id _ ?_ i h
    intro j hj
    simp at hj
  · simp at h

theorem primaryExtract_ne_empty (r : MeResponse) :
    ∀ i, primaryExtract r = some i → i ≠ "" := by
  intro i h
  cases hru : r.user with
  | none =>
    simp only [primaryExtract, hru] at h
    exact statusExtract_ne_empty r i h
  | some u =>
    simp only [primaryExtract, hru] at h
    refine truthyOr_ne_empty _ _ ?_ i h
    intro j hj
    refine truthyOr_ne_empty _ _ ?_ j hj
    intro j2 hj2
    refine truthyOr_ne_empty _ _ ?_ j2 hj2
    intro j3 hj3
    refine truthyOr_ne_empty _ _ ?_ j3 hj3
    intro j4 hj4
    exact statusExtract_ne_empty r j4 hj4

theorem neoExtract_ne_empty (n : NeoResponse) :
    ∀ i, neoExtract n = some i → i ≠ "" := by
  intro i h
  cases hnu : n.user with
  | none =>
    simp only [neoExtract, hnu] at h
    simp at h
  | some u =>
    simp only [neoExtract, hnu] at h
    refine truthyOr_ne_empty _ _ ?_ i h
    intro j hj
    refine truthyOr_ne_empty _ _ ?_ j hj
    intro j2 hj2
    simp at hj2

theorem extractAccountId_ne_empty (p : Option MeResponse)
    (n : Option NeoResponse) :
    ∀ i, extractAccountId p n = some i → i ≠ "" := by
  intro i h
  cases p with
  | none =>
    cases n with
    | none => simp [extractAccountId] at h
    | some nr =>
      simp only [extractAccountId] at h
      exact neoExtract_ne_empty nr i h
  | some r =>
    cases hpe : primaryExtract r with
    | some j =>
      simp only [extractAccountId, hpe, Option.some.injEq] at h
      subst h
      exact primaryExtract_ne_empty r j hpe
    | none =>
      simp only [extractAccountId, hpe] at h
      cases n with
      | none => simp at h
      | some nr => exact neoExtract_ne_empty nr i h

/-- After any fetchMe call with a non-empty uuid source, this.accountId is
truthy: every extraction path is guarded by a truthiness check and every
failure path installs the fabricated uuid. -/
theorem fetchMe_accountId_truthy (tokenSet : Bool) (p : Option MeResponse)
    (n : Option NeoResponse) (uuid : String) (st : ClientState)
    (hu : uuid ≠ "") :
    jsTruthy (fetchMe tokenSet p n uuid st).1.accountId = true := by
  unfold fetchMe
  cases tokenSet with
  | false => simp [jsTruthy, hu]
  | true =>
    cases hE : extractAccountId p n with
    | none => simp [hE, jsTruthy, hu]
    | some i => simp [hE, jsTruthy, extractAccountId_ne_empty p n i hE]

/-- Claim C6 (confirmed): the ensureSession step of sendMessage is cached
per client — starting from a client whose accountId is not yet populated,
the first operation triggers exactly one fetchMe (which always populates a
truthy accountId), and the second operation is a cache hit: zero fetchMe
calls and an unchanged client state. -/
theorem C6_session_cache (tokenSet : Bool) (p : Option MeResponse)
    (n : Option NeoResponse) (uuid : String) (s0 : ClientState)
    (hu : uuid ≠ "") (h0 : jsTruthy s0.accountId = false) :
    (ensureAccount tokenSet p n uuid s0).2 = 1 ∧
    (ensureAccount tokenSet p n uuid
        (ensureAccount tokenSet p n uuid s0).1).2 = 0 ∧
    (ensureAccount tokenSet p n uuid
        (ensureAccount tokenSet p n uuid s0).1).1 =
      (ensureAccount tokenSet p n uuid s0).1 := by
  have h1 : ensureAccount tokenSet p n uuid s0 =
      ((fetchMe tokenSet p n uuid s0).1, 1) := by
    unfold ensureAccount
    rw [h0]
    simp
  have h2 : jsTruthy (fetchMe tokenSet p n uuid s0).1.accountId = true :=
    fetchMe_accountId_truthy tokenSet p n uuid s0 hu
  rw [h1]
  refine ⟨rfl, ?_, ?_⟩ <;>
    · unfold ensureAccount
      rw [h2]
      simp

def c6Primary : MeResponse :=
  { user := some { id := some "acct-1", user := none, user_id := none },
    status := none, user_id := none }

/-- Witness for C6 at a concrete client and discovery response. -/
theorem C6_witness :
    (("uuid-x" : String) ≠ "" ∧
      jsTruthy (ClientState.mk none).accountId = false) ∧
    ((ensureAccount true (some c6Primary) none "uuid-x" ⟨none⟩).2 = 1 ∧
      (ensureAccount true (some c6Primary) none "uuid-x"
          (ensureAccount true (some c6Primary) none "uuid-x" ⟨none⟩).1).2 = 0 ∧
      (ensureAccount true (some c6Primary) none "uuid-x"
          (ensureAccount true (some c6Primary) none "uuid-x" ⟨none⟩).1).1 =
        (ensureAccount true (some c6Primary) none "uuid-x" ⟨none⟩).1) :=
  ⟨⟨by decide, by decide⟩,
    C6_session_cache true (some c6Primary) none "uuid-x" ⟨none⟩
      (by decide) (by decide)⟩
